import Mathlib

/-
  Verification development for the openshift-mcp-server repository.

  The definitions below are a shallow embedding of the tool-dispatch,
  query-classification, LLM-provider-selection and interaction-log logic of
  the repository.  Python dictionaries are embedded as association lists,
  Python values as the inductive `Val`, fallible Python code as `Except`
  (an exception in flight is the `.error` constructor carrying `str(e)`),
  and Python truthiness is made explicit (`valTruthy`, `pyTruthyStr`).
-/

namespace OpenShiftMCP

/-- Python values that flow through tool argument bags and result
dictionaries in this repository: strings, integers, booleans, `None`,
and lists of strings (used for the provider enumeration). -/
inductive Val where
  | vs (s : String)
  | vi (n : Int)
  | vb (b : Bool)
  | vnone
  | vstrs (xs : List String)
deriving DecidableEq, Repr

/-- Python truthiness of a value (`bool(v)`). -/
def valTruthy : Val → Bool
  | .vs s => !(s == "")
  | .vi n => !(n == 0)
  | .vb b => b
  | .vnone => false
  | .vstrs xs => !xs.isEmpty

/-- A Python dict with string keys, embedded as an association list
(first occurrence of a key wins, mirroring unique keys in a dict). -/
abbrev Bag := List (String × Val)

/-- Python `d.get(key)`: `None` (here `none`) when the key is absent. -/
def bagGet : Bag → String → Option Val
  | [], _ => none
  | (k, v) :: rest, key => if k == key then some v else bagGet rest key

/-- Truthiness of `d.get(key)`: `None` and falsy values both fail an
`if not x:` test in Python. -/
def optTruthy (o : Option Val) : Bool :=
  match o with
  | none => false
  | some v => valTruthy v

/-- Python `arguments[key]`: raises `KeyError(key)` when absent; `str` of a
`KeyError` is the quoted key. -/
def dictIndex (d : Bag) (key : String) : Except String Val :=
  match bagGet d key with
  | some v => .ok v
  | none => .error ("'" ++ key ++ "'")

/-- Python `str.lower()` on the ASCII inputs used by the classifier. -/
def pyLower (s : String) : String := ⟨s.data.map Char.toLower⟩

/-- `needle` is a prefix of `hay` (over characters). -/
def leadsWith : List Char → List Char → Bool
  | [], _ => true
  | _ :: _, [] => false
  | a :: as, b :: bs => a == b && leadsWith as bs

/-- `needle` occurs as a contiguous substring of `hay` (over characters). -/
def hasSub (needle : List Char) : List Char → Bool
  | [] => needle.isEmpty
  | b :: bs => leadsWith needle (b :: bs) || hasSub needle bs

/-- Python `needle in hay` on strings. -/
def pyIn (needle hay : String) : Bool := hasSub needle.data hay.data

/-- Rough `str(v)` for message interpolation (only used in rendered texts
no claim depends on). -/
def pyStr : Val → String
  | .vs s => s
  | .vi n => toString n
  | .vb b => if b then "True" else "False"
  | .vnone => "None"
  | .vstrs _ => "[...]"

namespace DirectClient

/-- The query-classification (routing) portion of
`DirectMCPClient.process_user_query` (src/mcp_client/direct_mcp_client.py,
lines 156-179); `process_user_query` in
src/mcp_client/working_mcp_client.py (lines 264-288) contains the identical
decision logic.  Returns the tool name chosen for the free-text query and
the argument bag handed to that tool.  The surrounding tool execution and
history recording are not part of the classification decision. -/
def process_user_query_route (user_query : String) : String × Bag :=
  let q := pyLower user_query
  if pyIn "namespace" q && pyIn "list" q then
    ("list_namespaces", [])
  else if pyIn "pod" q && pyIn "list" q then
    let ns :=
      if pyIn "namespace" q then
        if pyIn "production" q then "production"
        else if pyIn "development" q then "development"
        else "default"
      else "default"
    ("list_pods", [("namespace", Val.vs ns)])
  else if pyIn "connect" q || pyIn "cluster" q then
    ("connect_cluster", [])
  else if pyIn "ai" q || pyIn "llm" q || pyIn "help" q then
    ("ask_llm", [("question", Val.vs user_query)])
  else
    ("ask_llm", [("question", Val.vs user_query)])

end DirectClient

namespace LlmIntegration

/-- `LLMResponse` dataclass of src/old/llm_integration.py (lines 43-51).
Elapsed wall-clock time is abstracted to a natural number of ticks. -/
structure LLMResponse where
  content : String
  provider : String
  model : String
  tokens_used : Option Int := none
  response_time : Option Nat := none
  error : Option String := none
deriving DecidableEq, Repr

/-- `GeminiProvider.generate_response` (llm_integration.py lines 89-123):
the vendor SDK call either yields the response text or raises; on a raise
the provider returns an `LLMResponse` with empty content and the
stringified exception in `error`.  `sdk` is the outcome of the outbound
call, `elapsed` the measured wall-clock time of the successful call. -/
def gemini_generate_response (model : String) (sdk : Except String String)
    (elapsed : Nat) : LLMResponse :=
  match sdk with
  | .ok text =>
      { content := text, provider := "gemini", model := model,
        response_time := some elapsed }
  | .error e =>
      { content := "", provider := "gemini", model := model,
        error := some e }

/-- `OpenAIProvider.generate_response` (llm_integration.py lines 148-183):
the SDK outcome carries the choice text and the optional total token
count. -/
def openai_generate_response (model : String)
    (sdk : Except String (String × Option Int)) (elapsed : Nat) : LLMResponse :=
  match sdk with
  | .ok (text, tokens) =>
      { content := text, provider := "openai", model := model,
        tokens_used := tokens, response_time := some elapsed }
  | .error e =>
      { content := "", provider := "openai", model := model,
        error := some e }

/-- `ClaudeProvider.generate_response` (llm_integration.py lines 205-239):
the SDK outcome carries the first content block text and the summed
input+output token count. -/
def claude_generate_response (model : String)
    (sdk : Except String (String × Option Int)) (elapsed : Nat) : LLMResponse :=
  match sdk with
  | .ok (text, tokens) =>
      { content := text, provider := "claude", model := model,
        tokens_used := tokens, response_time := some elapsed }
  | .error e =>
      { content := "", provider := "claude", model := model,
        error := some e }

/-- `CustomLLMProvider.generate_response` (llm_integration.py lines
262-306): on success the JSON body's "response" field is used, falling
back to its "content" field and then to "".  The outcome carries those two
optional fields of the parsed body. -/
def custom_generate_response (model : String)
    (sdk : Except String (Option String × Option String)) (elapsed : Nat) :
    LLMResponse :=
  match sdk with
  | .ok (responseField, contentField) =>
      { content := responseField.getD (contentField.getD ""),
        provider := "custom", model := model, response_time := some elapsed }
  | .error e =>
      { content := "", provider := "custom", model := model,
        error := some e }

/-- The provider registry kept by `LLMManager` (llm_integration.py lines
322-328): the configured provider ids in insertion order and the
designated default. -/
structure LLMManager where
  providers : List String
  default_provider : Option String
deriving DecidableEq, Repr

/-- The environment variables consulted by `LLMManager.setup_providers`
(llm_integration.py lines 330-390); `none` is an unset variable. -/
structure Env where
  gemini_api_key : Option String := none
  openai_api_key : Option String := none
  anthropic_api_key : Option String := none
  custom_llm_api_key : Option String := none
  custom_llm_base_url : Option String := none
deriving DecidableEq, Repr

/-- Python truthiness of `os.getenv(...)`: unset (`None`) and the empty
string are both falsy. -/
def pyTruthyStr : Option String → Bool
  | none => false
  | some s => !(s == "")

/-- `LLMManager.setup_providers` (llm_integration.py lines 330-390): each
provider is registered when its key (and, for the custom provider, its
base url) is truthy in the environment; only the Gemini branch assigns
`default_provider`. -/
def setup_providers (env : Env) : LLMManager :=
  let m0 : LLMManager := { providers := [], default_provider := none }
  let m1 :=
    if pyTruthyStr env.gemini_api_key then
      { providers := m0.providers ++ ["gemini"],
        default_provider := some "gemini" }
    else m0
  let m2 :=
    if pyTruthyStr env.openai_api_key then
      { m1 with providers := m1.providers ++ ["openai"] }
    else m1
  let m3 :=
    if pyTruthyStr env.anthropic_api_key then
      { m2 with providers := m2.providers ++ ["claude"] }
    else m2
  let m4 :=
    if pyTruthyStr env.custom_llm_api_key && pyTruthyStr env.custom_llm_base_url then
      { m3 with providers := m3.providers ++ ["custom"] }
    else m3
  m4

/-- The response built by `LLMManager.generate_response` when no provider
can be selected (llm_integration.py lines 413-418). -/
def no_provider_response : LLMResponse :=
  { content := "", provider := "none", model := "none",
    error := some "No LLM provider available" }

/-- `LLMManager.generate_response` (llm_integration.py lines 399-421),
with the per-provider outbound call abstracted as `vendor`.  Returns the
response together with the list of providers actually invoked (the spy
record of outbound calls): `if provider and provider in self.providers`
selects the explicit argument, `elif self.default_provider` falls back to
the default, and otherwise the no-provider error response is returned with
no outbound call. -/
def LLMManager.generate_response (m : LLMManager) (vendor : String → LLMResponse)
    (provider : Option String) : LLMResponse × List String :=
  if pyTruthyStr provider && m.providers.contains (provider.getD "") then
    (vendor (provider.getD ""), [provider.getD ""])
  else if pyTruthyStr m.default_provider then
    (vendor (m.default_provider.getD ""), [m.default_provider.getD ""])
  else
    (no_provider_response, [])

/-- Stated from the claim's words, for comparison with the code: the
provider chain picks an explicit provider argument when it names a
configured provider, otherwise the configured default provider when one
exists, and otherwise nothing. -/
def claimedProviderChain (m : LLMManager) (provider : Option String) :
    Option String :=
  match provider with
  | some p => if m.providers.contains p then some p else m.default_provider
  | none => m.default_provider

end LlmIntegration

namespace ServerWithLlm

/-- An opaque live cluster connection (identity only). -/
abbrev ClusterHandle := Nat

/-- The process-global mutable state of
src/old/openshift_mcp_server_with_llm.py: the optional cluster handle
(`cluster`, line 27). -/
structure SState where
  cluster : Option ClusterHandle := none
deriving DecidableEq, Repr

/-- A Python dict returned by a tool handler. -/
abbrev Dict := Bag

/-- The error envelope `{"error": msg}` returned by the handlers. -/
def errDict (msg : String) : Dict := [("error", Val.vs msg)]

/-- The not-connected error dictionary common to every cluster tool
handler of the LLM-enabled server. -/
def notConnectedDict : Dict :=
  errDict "Not connected to cluster. Use connect_cluster first."

/-- The cluster and LLM collaborators behind the handlers
(`OpenShiftCluster` methods and `llm_manager`), with each outbound call
able to raise (`.error` carries `str(e)`).  `llm_generate` is
`llm_manager.generate_response`, which never raises (it returns a response
whose `error` field reports failures); `llm_test` is a per-provider probe
returning a boolean and `llm_test_all` the combined probe payload. -/
structure Gateway where
  list_namespaces : Except String Val
  list_applications : Val → Except String Val
  list_pods : Val → Except String Val
  list_services : Val → Except String Val
  list_routes : Val → Except String Val
  list_configmaps : Val → Except String Val
  list_secrets : Val → Except String Val
  get_pod_logs : Val → Val → Val → Except String Val
  get_resource_usage : Val → Except String Val
  scale_deployment : Val → Val → Val → Except String Val
  delete_pod : Val → Val → Except String Val
  create_namespace : Val → Option Val → Except String Val
  delete_namespace : Val → Except String Val
  llm_generate : Option Val → LlmIntegration.LLMResponse
  llm_test : String → Bool
  llm_test_all : Val

/-- Python truthiness of an optional error string (`if response.error:`). -/
def errTruthy : Option String → Bool
  | none => false
  | some s => !(s == "")

/-- `EnhancedOpenShiftMCPServer._handle_connect_cluster` (lines 324-336):
after validating `cluster_url` and `token` it evaluates
`OpenShiftCluster(cluster_url, token, verify_ssl)`; the constructor in
src/openshift_cluster.py (lines 21-26) accepts only `(cluster_url, token)`,
so passing the third `verify_ssl` argument raises a `TypeError` before the
global handle is assigned.  Returns the raised-or-returned outcome and the
resulting state. -/
def handle_connect_cluster (st : SState) (args : Bag) :
    Except String Dict × SState :=
  let cluster_url := bagGet args "cluster_url"
  let token := bagGet args "token"
  if !(optTruthy cluster_url) || !(optTruthy token) then
    (.ok (errDict "cluster_url and token are required"), st)
  else
    (.error "OpenShiftCluster.__init__() takes 3 positional arguments but 4 were given",
     st)

/-- `_handle_list_namespaces` (lines 338-344).  The second component of
the result records the gateway (cluster/LLM) calls issued. -/
def handle_list_namespaces (st : SState) (g : Gateway) :
    Except String Dict × List String :=
  match st.cluster with
  | none => (.ok notConnectedDict, [])
  | some _ =>
      match g.list_namespaces with
      | .ok v => (.ok [("namespaces", v)], ["list_namespaces"])
      | .error e => (.error e, ["list_namespaces"])

/-- `_handle_list_applications` (lines 346-356). -/
def handle_list_applications (st : SState) (g : Gateway) (args : Bag) :
    Except String Dict × List String :=
  match st.cluster with
  | none => (.ok notConnectedDict, [])
  | some _ =>
      let ns := bagGet args "namespace"
      if !(optTruthy ns) then (.ok (errDict "namespace is required"), [])
      else
        match g.list_applications (ns.getD .vnone) with
        | .ok v => (.ok [("applications", v)], ["list_applications"])
        | .error e => (.error e, ["list_applications"])

/-- `_handle_list_pods` (lines 358-368). -/
def handle_list_pods (st : SState) (g : Gateway) (args : Bag) :
    Except String Dict × List String :=
  match st.cluster with
  | none => (.ok notConnectedDict, [])
  | some _ =>
      let ns := bagGet args "namespace"
      if !(optTruthy ns) then (.ok (errDict "namespace is required"), [])
      else
        match g.list_pods (ns.getD .vnone) with
        | .ok v => (.ok [("pods", v)], ["list_pods"])
        | .error e => (.error e, ["list_pods"])

/-- `_handle_list_services` (lines 370-380). -/
def handle_list_services (st : SState) (g : Gateway) (args : Bag) :
    Except String Dict × List String :=
  match st.cluster with
  | none => (.ok notConnectedDict, [])
  | some _ =>
      let ns := bagGet args "namespace"
      if !(optTruthy ns) then (.ok (errDict "namespace is required"), [])
      else
        match g.list_services (ns.getD .vnone) with
        | .ok v => (.ok [("services", v)], ["list_services"])
        | .error e => (.error e, ["list_services"])

/-- `_handle_list_routes` (lines 382-392). -/
def handle_list_routes (st : SState) (g : Gateway) (args : Bag) :
    Except String Dict × List String :=
  match st.cluster with
  | none => (.ok notConnectedDict, [])
  | some _ =>
      let ns := bagGet args "namespace"
      if !(optTruthy ns) then (.ok (errDict "namespace is required"), [])
      else
        match g.list_routes (ns.getD .vnone) with
        | .ok v => (.ok [("routes", v)], ["list_routes"])
        | .error e => (.error e, ["list_routes"])

/-- `_handle_list_configmaps` (lines 394-404). -/
def handle_list_configmaps (st : SState) (g : Gateway) (args : Bag) :
    Except String Dict × List String :=
  match st.cluster with
  | none => (.ok notConnectedDict, [])
  | some _ =>
      let ns := bagGet args "namespace"
      if !(optTruthy ns) then (.ok (errDict "namespace is required"), [])
      else
        match g.list_configmaps (ns.getD .vnone) with
        | .ok v => (.ok [("configmaps", v)], ["list_configmaps"])
        | .error e => (.error e, ["list_configmaps"])

/-- `_handle_list_secrets` (lines 406-416). -/
def handle_list_secrets (st : SState) (g : Gateway) (args : Bag) :
    Except String Dict × List String :=
  match st.cluster with
  | none => (.ok notConnectedDict, [])
  | some _ =>
      let ns := bagGet args "namespace"
      if !(optTruthy ns) then (.ok (errDict "namespace is required"), [])
      else
        match g.list_secrets (ns.getD .vnone) with
        | .ok v => (.ok [("secrets", v)], ["list_secrets"])
        | .error e => (.error e, ["list_secrets"])

/-- `_handle_get_pod_logs` (lines 418-431); `tail_lines` defaults to 100. -/
def handle_get_pod_logs (st : SState) (g : Gateway) (args : Bag) :
    Except String Dict × List String :=
  match st.cluster with
  | none => (.ok notConnectedDict, [])
  | some _ =>
      let ns := bagGet args "namespace"
      let pod_name := bagGet args "pod_name"
      let tail_lines := (bagGet args "tail_lines").getD (.vi 100)
      if !(optTruthy ns) || !(optTruthy pod_name) then
        (.ok (errDict "namespace and pod_name are required"), [])
      else
        match g.get_pod_logs (ns.getD .vnone) (pod_name.getD .vnone) tail_lines with
        | .ok v => (.ok [("logs", v)], ["get_pod_logs"])
        | .error e => (.error e, ["get_pod_logs"])

/-- `_handle_get_resource_usage` (lines 433-443). -/
def handle_get_resource_usage (st : SState) (g : Gateway) (args : Bag) :
    Except String Dict × List String :=
  match st.cluster with
  | none => (.ok notConnectedDict, [])
  | some _ =>
      let ns := bagGet args "namespace"
      if !(optTruthy ns) then (.ok (errDict "namespace is required"), [])
      else
        match g.get_resource_usage (ns.getD .vnone) with
        | .ok v => (.ok [("resource_usage", v)], ["get_resource_usage"])
        | .error e => (.error e, ["get_resource_usage"])

/-- `_handle_scale_deployment` (lines 445-458); note the `replicas is
None` identity test, unlike the truthiness tests on the other two
arguments. -/
def handle_scale_deployment (st : SState) (g : Gateway) (args : Bag) :
    Except String Dict × List String :=
  match st.cluster with
  | none => (.ok notConnectedDict, [])
  | some _ =>
      let ns := bagGet args "namespace"
      let deployment_name := bagGet args "deployment_name"
      let replicas := bagGet args "replicas"
      if !(optTruthy ns) || !(optTruthy deployment_name) || replicas.isNone then
        (.ok (errDict "namespace, deployment_name, and replicas are required"), [])
      else
        match g.scale_deployment (ns.getD .vnone) (deployment_name.getD .vnone)
            (replicas.getD .vnone) with
        | .ok v => (.ok [("result", v)], ["scale_deployment"])
        | .error e => (.error e, ["scale_deployment"])

/-- `_handle_delete_pod` (lines 460-472). -/
def handle_delete_pod (st : SState) (g : Gateway) (args : Bag) :
    Except String Dict × List String :=
  match st.cluster with
  | none => (.ok notConnectedDict, [])
  | some _ =>
      let ns := bagGet args "namespace"
      let pod_name := bagGet args "pod_name"
      if !(optTruthy ns) || !(optTruthy pod_name) then
        (.ok (errDict "namespace and pod_name are required"), [])
      else
        match g.delete_pod (ns.getD .vnone) (pod_name.getD .vnone) with
        | .ok v => (.ok [("result", v)], ["delete_pod"])
        | .error e => (.error e, ["delete_pod"])

/-- `_handle_create_namespace` (lines 474-486); `labels` defaults to an
empty dict, modelled as the raw optional argument handed to the gateway. -/
def handle_create_namespace (st : SState) (g : Gateway) (args : Bag) :
    Except String Dict × List String :=
  match st.cluster with
  | none => (.ok notConnectedDict, [])
  | some _ =>
      let nm := bagGet args "name"
      let labels := bagGet args "labels"
      if !(optTruthy nm) then (.ok (errDict "name is required"), [])
      else
        match g.create_namespace (nm.getD .vnone) labels with
        | .ok v => (.ok [("result", v)], ["create_namespace"])
        | .error e => (.error e, ["create_namespace"])

/-- `_handle_delete_namespace` (lines 488-498). -/
def handle_delete_namespace (st : SState) (g : Gateway) (args : Bag) :
    Except String Dict × List String :=
  match st.cluster with
  | none => (.ok notConnectedDict, [])
  | some _ =>
      let nm := bagGet args "name"
      if !(optTruthy nm) then (.ok (errDict "name is required"), [])
      else
        match g.delete_namespace (nm.getD .vnone) with
        | .ok v => (.ok [("result", v)], ["delete_namespace"])
        | .error e => (.error e, ["delete_namespace"])

/-- `_handle_ask_llm` (lines 501-526): requires a truthy `question`, then
calls `llm_manager.generate_response` (which never raises) and converts a
truthy response error into an error dict.  The cluster-context string
prepending does not affect the envelope. -/
def handle_ask_llm (_st : SState) (g : Gateway) (args : Bag) :
    Except String Dict × List String :=
  let question := bagGet args "question"
  let provider := bagGet args "provider"
  if !(optTruthy question) then (.ok (errDict "question is required"), [])
  else
    let resp := g.llm_generate provider
    if errTruthy resp.error then
      (.ok (errDict ("LLM error: " ++ (resp.error.getD ""))), ["llm_generate"])
    else
      (.ok [("response", Val.vs resp.content), ("provider", Val.vs resp.provider),
            ("model", Val.vs resp.model)], ["llm_generate"])

/-- `_handle_get_llm_providers` (lines 528-537). -/
def handle_get_llm_providers (m : LlmIntegration.LLMManager) :
    Except String Dict × List String :=
  (.ok [("available_providers", Val.vstrs m.providers),
        ("default_provider",
          match m.default_provider with
          | some d => Val.vs d
          | none => Val.vnone),
        ("total_providers", Val.vi m.providers.length)], [])

/-- `_handle_test_llm_connection` (lines 539-553). -/
def handle_test_llm_connection (m : LlmIntegration.LLMManager) (g : Gateway)
    (args : Bag) : Except String Dict × List String :=
  match bagGet args "provider" with
  | some v =>
      if valTruthy v then
        match v with
        | .vs p =>
            if m.providers.contains p then
              (.ok [(p, Val.vb (g.llm_test p))], ["llm_test"])
            else
              (.ok (errDict ("Provider '" ++ p ++ "' not found")), [])
        | _ => (.ok (errDict ("Provider '" ++ pyStr v ++ "' not found")), [])
      else
        (.ok [("connection_results", g.llm_test_all)], ["llm_test_all"])
  | none => (.ok [("connection_results", g.llm_test_all)], ["llm_test_all"])

/-- `_handle_intelligent_cluster_analysis` (lines 555-612): the gathering
and LLM call sit inside a local try/except, so gateway exceptions here are
converted to a "Failed to gather cluster information" error dict rather
than propagated. -/
def handle_intelligent_cluster_analysis (st : SState) (g : Gateway)
    (args : Bag) : Except String Dict × List String :=
  match st.cluster with
  | none => (.ok notConnectedDict, [])
  | some _ =>
      let ns := bagGet args "namespace"
      let provider := bagGet args "provider"
      match g.list_namespaces with
      | .error e =>
          (.ok (errDict ("Failed to gather cluster information: " ++ e)),
           ["list_namespaces"])
      | .ok _ =>
          let afterGather : Except String Dict × List String → List String →
              Except String Dict × List String := fun llmStep calls =>
            (llmStep.1, calls ++ llmStep.2)
          let llmStep : Except String Dict × List String :=
            let resp := g.llm_generate provider
            if errTruthy resp.error then
              (.ok (errDict ("LLM analysis failed: " ++ (resp.error.getD ""))),
               ["llm_generate"])
            else
              (.ok [("analysis", Val.vs resp.content),
                    ("provider", Val.vs resp.provider),
                    ("model", Val.vs resp.model)], ["llm_generate"])
          if optTruthy ns then
            match g.list_pods (ns.getD .vnone) with
            | .error e =>
                (.ok (errDict ("Failed to gather cluster information: " ++ e)),
                 ["list_namespaces", "list_pods"])
            | .ok _ =>
                match g.list_services (ns.getD .vnone) with
                | .error e =>
                    (.ok (errDict ("Failed to gather cluster information: " ++ e)),
                     ["list_namespaces", "list_pods", "list_services"])
                | .ok _ =>
                    match g.list_routes (ns.getD .vnone) with
                    | .error e =>
                        (.ok (errDict
                            ("Failed to gather cluster information: " ++ e)),
                         ["list_namespaces", "list_pods", "list_services",
                          "list_routes"])
                    | .ok _ =>
                        afterGather llmStep
                          ["list_namespaces", "list_pods", "list_services",
                           "list_routes"]
          else
            afterGather llmStep ["list_namespaces"]

/-- `_handle_get_troubleshooting_help` (lines 614-659): requires a truthy
`issue_description`; the best-effort context gather swallows its own
exceptions (bare except), then the LLM call's error field is checked. -/
def handle_get_troubleshooting_help (st : SState) (g : Gateway) (args : Bag) :
    Except String Dict × List String :=
  let issue_description := bagGet args "issue_description"
  let provider := bagGet args "provider"
  if !(optTruthy issue_description) then
    (.ok (errDict "issue_description is required"), [])
  else
    let gatherCalls : List String :=
      match st.cluster with
      | some _ => ["list_namespaces"]
      | none => []
    let resp := g.llm_generate provider
    if errTruthy resp.error then
      (.ok (errDict ("Troubleshooting help failed: " ++ (resp.error.getD ""))),
       gatherCalls ++ ["llm_generate"])
    else
      (.ok [("troubleshooting_help", Val.vs resp.content),
            ("provider", Val.vs resp.provider),
            ("model", Val.vs resp.model)], gatherCalls ++ ["llm_generate"])

/-- The body of `call_tool` (lines 268-321) before its try/except: routes
the tool name to its handler, or builds the unknown-tool error dict.
Returns the raised-or-returned outcome, the resulting global state and the
record of gateway calls issued. -/
def rawDispatch (m : LlmIntegration.LLMManager) (st : SState) (g : Gateway)
    (name : String) (args : Bag) : Except String Dict × SState × List String :=
  match name with
  | "connect_cluster" =>
      let r := handle_connect_cluster st args
      (r.1, r.2, [])
  | "list_namespaces" =>
      let r := handle_list_namespaces st g
      (r.1, st, r.2)
  | "list_applications" =>
      let r := handle_list_applications st g args
      (r.1, st, r.2)
  | "list_pods" =>
      let r := handle_list_pods st g args
      (r.1, st, r.2)
  | "list_services" =>
      let r := handle_list_services st g args
      (r.1, st, r.2)
  | "list_routes" =>
      let r := handle_list_routes st g args
      (r.1, st, r.2)
  | "list_configmaps" =>
      let r := handle_list_configmaps st g args
      (r.1, st, r.2)
  | "list_secrets" =>
      let r := handle_list_secrets st g args
      (r.1, st, r.2)
  | "get_pod_logs" =>
      let r := handle_get_pod_logs st g args
      (r.1, st, r.2)
  | "get_resource_usage" =>
      let r := handle_get_resource_usage st g args
      (r.1, st, r.2)
  | "scale_deployment" =>
      let r := handle_scale_deployment st g args
      (r.1, st, r.2)
  | "delete_pod" =>
      let r := handle_delete_pod st g args
      (r.1, st, r.2)
  | "create_namespace" =>
      let r := handle_create_namespace st g args
      (r.1, st, r.2)
  | "delete_namespace" =>
      let r := handle_delete_namespace st g args
      (r.1, st, r.2)
  | "ask_llm" =>
      let r := handle_ask_llm st g args
      (r.1, st, r.2)
  | "get_llm_providers" =>
      let r := handle_get_llm_providers m
      (r.1, st, r.2)
  | "test_llm_connection" =>
      let r := handle_test_llm_connection m g args
      (r.1, st, r.2)
  | "intelligent_cluster_analysis" =>
      let r := handle_intelligent_cluster_analysis st g args
      (r.1, st, r.2)
  | "get_troubleshooting_help" =>
      let r := handle_get_troubleshooting_help st g args
      (r.1, st, r.2)
  | _ =>
      (.ok (errDict ("Unknown tool: " ++ name)), st, [])

/-- `call_tool` (lines 268-321) with its surrounding try/except: any
exception raised by a handler or gateway is caught at this boundary and
converted into the `{"error": str(e)}` envelope; the caller always
receives a dictionary value. -/
def call_tool (m : LlmIntegration.LLMManager) (st : SState) (g : Gateway)
    (name : String) (args : Bag) : Dict × SState × List String :=
  match rawDispatch m st g name args with
  | (.ok d, st2, calls) => (d, st2, calls)
  | (.error e, st2, calls) => (errDict e, st2, calls)

/-- The cluster tools named by the specification: the list tools plus pod
logs, resource usage, and the four mutation tools. -/
def clusterToolNames : List String :=
  ["list_namespaces", "list_applications", "list_pods", "list_services",
   "list_routes", "list_configmaps", "list_secrets", "get_pod_logs",
   "get_resource_usage", "scale_deployment", "delete_pod",
   "create_namespace", "delete_namespace"]

/-- The `required` arrays declared by the tool input schemas of the
LLM-enabled server (`list_tools`, lines 48-266), which the handlers
enforce. -/
def requiredArgsTable : List (String × List String) :=
  [("connect_cluster", ["cluster_url", "token"]),
   ("list_applications", ["namespace"]),
   ("list_pods", ["namespace"]),
   ("list_services", ["namespace"]),
   ("list_routes", ["namespace"]),
   ("list_configmaps", ["namespace"]),
   ("list_secrets", ["namespace"]),
   ("get_pod_logs", ["namespace", "pod_name"]),
   ("get_resource_usage", ["namespace"]),
   ("scale_deployment", ["namespace", "deployment_name", "replicas"]),
   ("delete_pod", ["namespace", "pod_name"]),
   ("create_namespace", ["name"]),
   ("delete_namespace", ["name"]),
   ("ask_llm", ["question"]),
   ("get_troubleshooting_help", ["issue_description"])]

/-- The required arguments of one tool (empty for the tools whose schemas
declare none). -/
def requiredArgs (name : String) : List String :=
  match requiredArgsTable.find? (fun p => p.1 == name) with
  | some p => p.2
  | none => []

/-- The validation error message each handler emits when its required
arguments are missing or falsy (the exact strings of the handlers in
lines 324-659). -/
def validationMessage : String → String
  | "connect_cluster" => "cluster_url and token are required"
  | "get_pod_logs" => "namespace and pod_name are required"
  | "scale_deployment" => "namespace, deployment_name, and replicas are required"
  | "delete_pod" => "namespace and pod_name are required"
  | "create_namespace" => "name is required"
  | "delete_namespace" => "name is required"
  | "ask_llm" => "question is required"
  | "get_troubleshooting_help" => "issue_description is required"
  | _ => "namespace is required"

/-- A concrete gateway used to evaluate the dispatcher at specific inputs
(a spy: every cluster method succeeds with an inert payload). -/
def spyGateway : Gateway where
  list_namespaces := .ok (Val.vstrs ["default"])
  list_applications := fun _ => .ok Val.vnone
  list_pods := fun _ => .ok Val.vnone
  list_services := fun _ => .ok Val.vnone
  list_routes := fun _ => .ok Val.vnone
  list_configmaps := fun _ => .ok Val.vnone
  list_secrets := fun _ => .ok Val.vnone
  get_pod_logs := fun _ _ _ => .ok Val.vnone
  get_resource_usage := fun _ => .ok Val.vnone
  scale_deployment := fun _ _ _ => .ok Val.vnone
  delete_pod := fun _ _ => .ok Val.vnone
  create_namespace := fun _ _ => .ok Val.vnone
  delete_namespace := fun _ => .ok Val.vnone
  llm_generate := fun _ =>
    { content := "ok", provider := "gemini", model := "gemini-1.5-flash" }
  llm_test := fun _ => true
  llm_test_all := Val.vnone

end ServerWithLlm

namespace BaseServer

/-- The process-global state of src/openshift_mcp_server.py: the optional
`cluster` handle (line 34). -/
structure BState where
  cluster : Option ServerWithLlm.ClusterHandle := none
deriving DecidableEq, Repr

/-- A tool response of the base server (a single text content item).  The
markdown renderers that merely read the payload returned by the cluster
client are abstracted as `report tool payload` nodes; exact message
strings (connection errors, the unknown-tool text, the catch-all
exception text) are kept verbatim as `text`.  The `get_resource_usage`
renderer is the one exception and is modelled precisely, because it
raises (see `rawHandle`). -/
inductive OutText where
  | text (s : String)
  | report (tool : String) (payload : Bag)
deriving DecidableEq, Repr

/-- The not-connected message of the base server's handlers. -/
def notConnText : String :=
  "Error: Not connected to a cluster. Please connect first using connect_cluster."

/-- The cluster collaborator of the base server (`OpenShiftCluster`
methods plus its constructor).  Each call may raise. -/
structure BGateway where
  construct_cluster : Val → Val → Except String ServerWithLlm.ClusterHandle
  list_namespaces : Except String Val
  list_applications : Val → Except String Val
  list_pods : Val → Except String Val
  list_services : Val → Except String Val
  list_routes : Val → Except String Val
  get_pod_logs : Val → Val → Val → Except String Val
  describe_resource : Val → Val → Val → Except String Val
  get_namespace_info : Val → Except String Bag
  list_configmaps : Val → Except String Val
  list_secrets : Val → Except String Val
  scale_deployment : Val → Val → Val → Except String Bag
  restart_deployment : Val → Val → Except String Bag
  get_cluster_health : Except String Bag
  get_resource_usage : Val → Except String Bag

/-- The body of `handle_call_tool` (src/openshift_mcp_server.py, lines
213-550) before its try/except.  Required arguments are read with
`arguments[...]` (raising `KeyError` when absent).  In the
`get_resource_usage` success branch (usage data present and without an
"error" key) the source builds its response from
`usage_info['total_cpu_request']` and then `self._format_memory(...)`
(line 527): `handle_call_tool` is a plain function, `self` is not defined
in its scope (and the `_format_memory` definition at lines 559-568 sits
after the branch's return, inside the function body, unreachable), so the
branch raises `KeyError('total_cpu_request')` or
`NameError("name 'self' is not defined")` and never returns the formatted
report. -/
def rawHandle (st : BState) (g : BGateway) (name : String) (args : Bag) :
    Except String (OutText × BState) :=
  match name with
  | "connect_cluster" => do
      let cluster_url ← dictIndex args "cluster_url"
      let token ← dictIndex args "token"
      let h ← g.construct_cluster cluster_url token
      .ok (.text ("Successfully connected to OpenShift cluster: " ++ pyStr cluster_url),
           { cluster := some h })
  | "list_namespaces" =>
      match st.cluster with
      | none => .ok (.text notConnText, st)
      | some _ => do
          let v ← g.list_namespaces
          .ok (.report "list_namespaces" [("namespaces", v)], st)
  | "list_applications" =>
      match st.cluster with
      | none => .ok (.text notConnText, st)
      | some _ => do
          let ns ← dictIndex args "namespace"
          let v ← g.list_applications ns
          .ok (.report "list_applications" [("applications", v)], st)
  | "list_pods" =>
      match st.cluster with
      | none => .ok (.text notConnText, st)
      | some _ => do
          let ns ← dictIndex args "namespace"
          let v ← g.list_pods ns
          .ok (.report "list_pods" [("pods", v)], st)
  | "list_services" =>
      match st.cluster with
      | none => .ok (.text notConnText, st)
      | some _ => do
          let ns ← dictIndex args "namespace"
          let v ← g.list_services ns
          .ok (.report "list_services" [("services", v)], st)
  | "list_routes" =>
      match st.cluster with
      | none => .ok (.text notConnText, st)
      | some _ => do
          let ns ← dictIndex args "namespace"
          let v ← g.list_routes ns
          .ok (.report "list_routes" [("routes", v)], st)
  | "get_pod_logs" =>
      match st.cluster with
      | none => .ok (.text notConnText, st)
      | some _ => do
          let ns ← dictIndex args "namespace"
          let pod_name ← dictIndex args "pod_name"
          let tail_lines := (bagGet args "tail_lines").getD (.vi 100)
          let v ← g.get_pod_logs ns pod_name tail_lines
          .ok (.report "get_pod_logs" [("logs", v)], st)
  | "describe_resource" =>
      match st.cluster with
      | none => .ok (.text notConnText, st)
      | some _ => do
          let ns ← dictIndex args "namespace"
          let resource_type ← dictIndex args "resource_type"
          let resource_name ← dictIndex args "resource_name"
          let v ← g.describe_resource ns resource_type resource_name
          .ok (.report "describe_resource" [("resource", v)], st)
  | "get_namespace_info" =>
      match st.cluster with
      | none => .ok (.text notConnText, st)
      | some _ => do
          let ns ← dictIndex args "namespace"
          let info ← g.get_namespace_info ns
          if (bagGet info "error").isNone then
            .ok (.report "get_namespace_info" info, st)
          else
            .ok (.report "get_namespace_info_error" info, st)
  | "list_configmaps" =>
      match st.cluster with
      | none => .ok (.text notConnText, st)
      | some _ => do
          let ns ← dictIndex args "namespace"
          let v ← g.list_configmaps ns
          .ok (.report "list_configmaps" [("configmaps", v)], st)
  | "list_secrets" =>
      match st.cluster with
      | none => .ok (.text notConnText, st)
      | some _ => do
          let ns ← dictIndex args "namespace"
          let v ← g.list_secrets ns
          .ok (.report "list_secrets" [("secrets", v)], st)
  | "scale_deployment" =>
      match st.cluster with
      | none => .ok (.text notConnText, st)
      | some _ => do
          let ns ← dictIndex args "namespace"
          let deployment_name ← dictIndex args "deployment_name"
          let replicas ← dictIndex args "replicas"
          let result ← g.scale_deployment ns deployment_name replicas
          let sflag ← dictIndex result "success"
          if valTruthy sflag then
            .ok (.report "scale_deployment_ok" result, st)
          else
            .ok (.report "scale_deployment_error" result, st)
  | "restart_deployment" =>
      match st.cluster with
      | none => .ok (.text notConnText, st)
      | some _ => do
          let ns ← dictIndex args "namespace"
          let deployment_name ← dictIndex args "deployment_name"
          let result ← g.restart_deployment ns deployment_name
          let sflag ← dictIndex result "success"
          if valTruthy sflag then
            .ok (.report "restart_deployment_ok" result, st)
          else
            .ok (.report "restart_deployment_error" result, st)
  | "get_cluster_health" =>
      match st.cluster with
      | none => .ok (.text notConnText, st)
      | some _ => do
          let health ← g.get_cluster_health
          if (bagGet health "error").isNone then
            .ok (.report "get_cluster_health" health, st)
          else
            .ok (.report "get_cluster_health_error" health, st)
  | "get_resource_usage" =>
      match st.cluster with
      | none => .ok (.text notConnText, st)
      | some _ => do
          let ns ← dictIndex args "namespace"
          let usage_info ← g.get_resource_usage ns
          if (bagGet usage_info "error").isNone then
            match bagGet usage_info "total_cpu_request" with
            | none => .error "'total_cpu_request'"
            | some _ => .error "name 'self' is not defined"
          else
            .ok (.report "get_resource_usage_error" usage_info, st)
  | _ =>
      .ok (.text ("Unknown tool: " ++ name), st)

/-- `handle_call_tool` with its surrounding try/except (lines 213-557):
any exception becomes the catch-all text
`Error executing tool '<name>': <str(e)>` and the state is unchanged. -/
def handle_call_tool (st : BState) (g : BGateway) (name : String)
    (args : Bag) : OutText × BState :=
  match rawHandle st g name args with
  | .ok r => r
  | .error e => (.text ("Error executing tool '" ++ name ++ "': " ++ e), st)

/-- A concrete base-server gateway for evaluating the dispatcher: its
`get_resource_usage` returns plausible usage data with no "error" key. -/
def spyBaseGateway : BGateway where
  construct_cluster := fun _ _ => .ok 1
  list_namespaces := .ok (Val.vstrs ["default"])
  list_applications := fun _ => .ok Val.vnone
  list_pods := fun _ => .ok Val.vnone
  list_services := fun _ => .ok Val.vnone
  list_routes := fun _ => .ok Val.vnone
  get_pod_logs := fun _ _ _ => .ok (Val.vs "log line")
  describe_resource := fun _ _ _ => .ok Val.vnone
  get_namespace_info := fun _ => .ok [("name", Val.vs "default")]
  list_configmaps := fun _ => .ok Val.vnone
  list_secrets := fun _ => .ok Val.vnone
  scale_deployment := fun _ _ _ => .ok [("success", Val.vb true)]
  restart_deployment := fun _ _ => .ok [("success", Val.vb true)]
  get_cluster_health := .ok [("namespaces_count", Val.vi 3)]
  get_resource_usage := fun _ =>
    .ok [("total_cpu_request", Val.vi 2), ("total_memory_request", Val.vi 1024)]

end BaseServer

namespace WorkingHost

/-- `WorkingOpenShiftHostApp.add_to_history`
(src/mcp_host/working_host_app.py, lines 75-83): appends the interaction
record dict to `conversation_history`; the timestamp is supplied by the
caller here (`datetime.now().isoformat()` in the source). -/
def add_to_history (hist : List Bag) (ts user_query response tool_used : String)
    (execution_time : Int) : List Bag :=
  hist ++ [[("timestamp", Val.vs ts), ("user_query", Val.vs user_query),
            ("response", Val.vs response), ("tool_used", Val.vs tool_used),
            ("execution_time", Val.vi execution_time)]]

/-- Python `l[-n:]` for `n ≥ 1`: the last `min n (length l)` elements in
original order. -/
def lastN (l : List α) (n : Nat) : List α := l.drop (l.length - n)

/-- One line of `get_history_summary` (line 92): it reads
`entry['query']` — but `add_to_history` stores the key `'user_query'` —
then `entry['tool_used']` and `entry['execution_time']`. -/
def summaryLine (i : Nat) (entry : Bag) : Except String String := do
  let q ← dictIndex entry "query"
  let tool ← dictIndex entry "tool_used"
  let et ← dictIndex entry "execution_time"
  .ok (toString i ++ ". " ++ pyStr q ++ "...\n   Tool: " ++ pyStr tool ++
       " | Time: " ++ pyStr et ++ "s\n")

/-- The `for i, entry in enumerate(history[-5:], 1)` loop of
`get_history_summary`. -/
def summaryFold : Nat → List Bag → String → Except String String
  | _, [], acc => .ok acc
  | i, e :: es, acc => do
      let line ← summaryLine i e
      summaryFold (i + 1) es (acc ++ line)

/-- `WorkingOpenShiftHostApp.get_history_summary` (lines 85-95). -/
def get_history_summary (hist : List Bag) : Except String String :=
  if hist.isEmpty then .ok "No conversation history yet."
  else
    summaryFold 1 (lastN hist 5)
      ("Conversation History (" ++ toString hist.length ++ " interactions):\n")

end WorkingHost

end OpenShiftMCP

open OpenShiftMCP

open OpenShiftMCP.LlmIntegration

/-- Helper: `setup_providers` never registers the empty string as a
provider id. -/
theorem setup_providers_no_empty (env : Env) :
    (setup_providers env).providers.contains "" = false := by
  unfold setup_providers
  cases hg : pyTruthyStr env.gemini_api_key <;>
    cases ho : pyTruthyStr env.openai_api_key <;>
      cases ha : pyTruthyStr env.anthropic_api_key <;>
        cases hc : (pyTruthyStr env.custom_llm_api_key &&
            pyTruthyStr env.custom_llm_base_url) <;>
          simp [hg, ho, ha, hc]

/-- Helper: the default provider after `setup_providers` is `"gemini"`
exactly when the Gemini key is truthy, and nothing otherwise. -/
theorem setup_providers_default (env : Env) :
    (setup_providers env).default_provider =
      (if pyTruthyStr env.gemini_api_key then some "gemini" else none) := by
  unfold setup_providers
  cases hg : pyTruthyStr env.gemini_api_key <;>
    cases ho : pyTruthyStr env.openai_api_key <;>
      cases ha : pyTruthyStr env.anthropic_api_key <;>
        cases hc : (pyTruthyStr env.custom_llm_api_key &&
            pyTruthyStr env.custom_llm_base_url) <;>
          simp [hg, ho, ha, hc]

/-- Helper: on any manager whose provider ids are nonempty strings and
whose default (when present) is a nonempty string, the code's selection in
`generate_response` agrees with the claimed chain. -/
theorem generate_response_chain (m : LLMManager) (vendor : String → LLMResponse)
    (provider : Option String)
    (h1 : m.providers.contains "" = false)
    (h2 : ∀ d, m.default_provider = some d → ¬ d = "") :
    m.generate_response vendor provider =
      (match claimedProviderChain m provider with
       | some p => (vendor p, [p])
       | none => (no_provider_response, [])) := by
  unfold LLMManager.generate_response claimedProviderChain
  cases provider with
  | none =>
      simp only [pyTruthyStr, Bool.false_and, if_false]
      cases hd : m.default_provider with
      | none => simp [pyTruthyStr]
      | some d =>
          have hne : ¬ d = "" := h2 d hd
          simp [pyTruthyStr, hne]
  | some p =>
      by_cases hp : p = ""
      · subst hp
        have hm0 : ("" : String) ∉ m.providers := by simpa using h1
        cases hd : m.default_provider with
        | none => simp [pyTruthyStr, hm0]
        | some d =>
            have hne : ¬ d = "" := h2 d hd
            simp [pyTruthyStr, hne, hm0]
      · by_cases hm : p ∈ m.providers
        · simp [pyTruthyStr, hp, hm]
        · cases hd : m.default_provider with
          | none => simp [pyTruthyStr, hp, hm]
          | some d =>
              have hne : ¬ d = "" := h2 d hd
              simp [pyTruthyStr, hp, hm, hne]

/-- C1 counterexample: on the input "list pods in production namespace" the
classifier does NOT return `list_pods` with namespace "production"; the
first rule (text contains both "namespace" and "list") wins and routes the
query to `list_namespaces` with no arguments. -/
theorem c1_counterexample :
    DirectClient.process_user_query_route "list pods in production namespace"
      ≠ ("list_pods", [("namespace", Val.vs "production")]) ∧
    DirectClient.process_user_query_route "list pods in production namespace"
      = ("list_namespaces", []) := by
  constructor
  · decide
  · decide

/-- C1 (amended): for the input "list pods in production namespace" the
query classifier returns the tool `list_namespaces` with an empty argument
bag, because the first-match-wins rule "contains namespace AND list" fires
before the pod-listing rule. -/
theorem c1_amended_thm :
    DirectClient.process_user_query_route "list pods in production namespace"
      = ("list_namespaces", []) := by
  decide

/-- C4: LLM provider selection for generate_response follows exactly the
fallback chain: an explicit provider argument naming a configured provider
is used; otherwise (including an explicit argument naming an unconfigured
provider) the configured default provider is used when one exists;
otherwise the call returns the "No LLM provider available" error response
with no outbound vendor call (empty spy record). -/
theorem c4_thm (env : Env) (vendor : String → LLMResponse) (provider : Option String) :
    (setup_providers env).generate_response vendor provider =
      (match claimedProviderChain (setup_providers env) provider with
       | some p => (vendor p, [p])
       | none => (no_provider_response, [])) := by
  apply generate_response_chain
  · exact setup_providers_no_empty env
  · intro d hd
    rw [setup_providers_default] at hd
    by_cases hg : pyTruthyStr env.gemini_api_key
    · rw [if_pos hg] at hd
      cases hd
      decide
    · rw [if_neg hg] at hd
      cases hd

/-- C5 counterexample: in an environment whose only key is an OpenAI key,
a provider is configured yet no default provider exists, contradicting the
claim that the first configured provider in the preference order becomes
the default. -/
theorem c5_counterexample :
    (setup_providers { openai_api_key := some "k" }).providers = ["openai"] ∧
    (setup_providers { openai_api_key := some "k" }).default_provider = none := by
  decide

/-- C5 (amended): after provider setup the default provider is "gemini"
exactly when the Gemini API key is present (truthy); providers other than
Gemini never become the default, so a configuration without a Gemini key
has no default provider even when other providers are configured. -/
theorem c5_amended_thm (env : Env) :
    (setup_providers env).default_provider =
      (if pyTruthyStr env.gemini_api_key then some "gemini" else none) := by
  unfold setup_providers
  cases hg : pyTruthyStr env.gemini_api_key <;>
    cases ho : pyTruthyStr env.openai_api_key <;>
      cases ha : pyTruthyStr env.anthropic_api_key <;>
        cases hc : (pyTruthyStr env.custom_llm_api_key &&
            pyTruthyStr env.custom_llm_base_url) <;>
          simp [hg, ho, ha, hc]

/-- C7: every LLMResponse produced by a provider (Gemini, OpenAI, Claude,
Custom) or by the manager no-provider path satisfies the invariant that a
present error field forces empty content. -/
theorem c7_thm (r : LLMResponse)
    (h : (∃ model sdk elapsed, r = gemini_generate_response model sdk elapsed) ∨
         (∃ model sdk elapsed, r = openai_generate_response model sdk elapsed) ∨
         (∃ model sdk elapsed, r = claude_generate_response model sdk elapsed) ∨
         (∃ model sdk elapsed, r = custom_generate_response model sdk elapsed) ∨
         r = no_provider_response)
    (he : r.error ≠ none) : r.content = "" := by
  rcases h with ⟨m, sdk, t, rfl⟩ | ⟨m, sdk, t, rfl⟩ | ⟨m, sdk, t, rfl⟩ |
      ⟨m, sdk, t, rfl⟩ | rfl
  · cases sdk with
    | ok v => simp [gemini_generate_response] at he
    | error e => simp [gemini_generate_response]
  · cases sdk with
    | ok v => simp [openai_generate_response] at he
    | error e => simp [openai_generate_response]
  · cases sdk with
    | ok v => simp [claude_generate_response] at he
    | error e => simp [claude_generate_response]
  · cases sdk with
    | ok v => simp [custom_generate_response] at he
    | error e => simp [custom_generate_response]
  · simp [no_provider_response]

/-- C7 witness: the Gemini provider hit by an SDK exception yields a
response with a present error and empty content. -/
theorem c7_witness :
    (gemini_generate_response "gemini-1.5-flash" (Except.error "boom") 0).error ≠ none ∧
    (gemini_generate_response "gemini-1.5-flash" (Except.error "boom") 0).content = "" :=
  ⟨by decide,
   c7_thm _ (Or.inl ⟨"gemini-1.5-flash", Except.error "boom", 0, rfl⟩) (by decide)⟩


open OpenShiftMCP.ServerWithLlm

/-- C2 counterexample: with no cluster handle, the LLM-enabled server's
`list_namespaces` invocation fails with the error string "Not connected to
cluster. Use connect_cluster first.", which is not the specific string
"Not connected to cluster". -/
theorem c2_counterexample :
    (call_tool ⟨[], none⟩ ⟨none⟩ spyGateway "list_namespaces" []).1
      ≠ errDict "Not connected to cluster" ∧
    (call_tool ⟨[], none⟩ ⟨none⟩ spyGateway "list_namespaces" []).1
      = errDict "Not connected to cluster. Use connect_cluster first." := by
  constructor
  · decide
  · decide

/-- C2 (amended): every cluster tool invoked with no cluster handle
returns, without raising and without any gateway call, the failed result
whose error is the string "Not connected to cluster. Use connect_cluster
first." (which begins with the claimed "Not connected to cluster"), and
the state is unchanged. -/
theorem c2_amended_thm (m : LlmIntegration.LLMManager) (g : Gateway)
    (args : Bag) (name : String) (h : name ∈ clusterToolNames) :
    rawDispatch m ⟨none⟩ g name args = (.ok notConnectedDict, ⟨none⟩, []) ∧
    call_tool m ⟨none⟩ g name args = (notConnectedDict, ⟨none⟩, []) := by
  fin_cases h <;> exact ⟨rfl, rfl⟩

/-- C2 witness: `list_pods` with no handle on a concrete gateway. -/
theorem c2_witness :
    call_tool ⟨[], none⟩ ⟨none⟩ spyGateway "list_pods" []
      = (notConnectedDict, ⟨none⟩, []) :=
  (c2_amended_thm ⟨[], none⟩ spyGateway [] "list_pods" (by decide)).2

/-- C6: any tool invocation in which the handler or gateway raises an
exception yields the `{"error": str(e)}` envelope from the dispatcher's
try/except rather than a propagated fault; `call_tool` always returns a
dictionary value to the host. -/
theorem c6_thm (m : LlmIntegration.LLMManager) (st : SState) (g : Gateway)
    (name : String) (args : Bag) (e : String)
    (h : (rawDispatch m st g name args).1 = Except.error e) :
    (call_tool m st g name args).1 = errDict e := by
  unfold call_tool
  rcases ht : rawDispatch m st g name args with ⟨r, st2, calls⟩
  rw [ht] at h
  simp only at h
  subst h
  rfl

/-- C6 witness: `connect_cluster` with both arguments present raises a
`TypeError` inside the handler; the dispatcher converts it into the error
envelope. -/
theorem c6_witness :
    (call_tool ⟨[], none⟩ ⟨none⟩ spyGateway "connect_cluster"
        [("cluster_url", Val.vs "https://api.example:6443"),
         ("token", Val.vs "sha256~abc")]).1
      = errDict "OpenShiftCluster.__init__() takes 3 positional arguments but 4 were given" :=
  c6_thm ⟨[], none⟩ ⟨none⟩ spyGateway "connect_cluster"
    [("cluster_url", Val.vs "https://api.example:6443"),
     ("token", Val.vs "sha256~abc")]
    "OpenShiftCluster.__init__() takes 3 positional arguments but 4 were given"
    rfl

/-- C9: in the LLM-enabled server, every `connect_cluster` invocation with
truthy `cluster_url` and `token` returns an error result (the handler
passes a third `verify_ssl` argument to the two-parameter
`OpenShiftCluster` constructor, raising before assignment) and leaves the
global cluster handle exactly as it was. -/
theorem c9_thm (m : LlmIntegration.LLMManager) (st : SState) (g : Gateway)
    (args : Bag)
    (hu : optTruthy (bagGet args "cluster_url") = true)
    (ht : optTruthy (bagGet args "token") = true) :
    (∃ msg, (call_tool m st g "connect_cluster" args).1 = errDict msg) ∧
    (call_tool m st g "connect_cluster" args).2.1 = st := by
  unfold call_tool rawDispatch handle_connect_cluster
  simp [hu, ht]

/-- C9 witness: a concrete connect attempt on a state that already holds a
handle keeps that handle and reports an error. -/
theorem c9_witness :
    (∃ msg, (call_tool ⟨[], none⟩ ⟨some 7⟩ spyGateway "connect_cluster"
        [("cluster_url", Val.vs "https://api.example:6443"),
         ("token", Val.vs "sha256~abc")]).1 = errDict msg) ∧
    (call_tool ⟨[], none⟩ ⟨some 7⟩ spyGateway "connect_cluster"
        [("cluster_url", Val.vs "https://api.example:6443"),
         ("token", Val.vs "sha256~abc")]).2.1 = ⟨some 7⟩ :=
  c9_thm ⟨[], none⟩ ⟨some 7⟩ spyGateway
    [("cluster_url", Val.vs "https://api.example:6443"),
     ("token", Val.vs "sha256~abc")]
    (by decide) (by decide)

/-- Helper: a required-argument entry comes from the schema table. -/
theorem requiredArgs_mem_table (name key : String)
    (hk : key ∈ requiredArgs name) :
    (name, requiredArgs name) ∈ requiredArgsTable := by
  by_cases hf : (requiredArgsTable.find? (fun p => p.1 == name)).isSome
  · obtain ⟨pr, hp⟩ := Option.isSome_iff_exists.mp hf
    have hp1 : pr.1 = name := by simpa using List.find?_some hp
    have hmem : pr ∈ requiredArgsTable := List.mem_of_find?_eq_some hp
    have hra : requiredArgs name = pr.2 := by unfold requiredArgs; rw [hp]
    rw [hra, ← hp1]
    simpa using hmem
  · have hnone : requiredArgsTable.find? (fun p => p.1 == name) = none :=
      Option.not_isSome_iff_eq_none.mp hf
    have hra : requiredArgs name = [] := by unfold requiredArgs; rw [hnone]
    rw [hra] at hk
    simp at hk

/-- C3 counterexample: with a connected cluster, `scale_deployment` missing
only `replicas` fails with "namespace, deployment_name, and replicas are
required"; the message mentions the missing key but is not of the claimed
form "replicas is required" (it does not even contain that phrase). -/
theorem c3_counterexample :
    (call_tool ⟨[], none⟩ ⟨some 1⟩ spyGateway "scale_deployment"
        [("namespace", Val.vs "default"), ("deployment_name", Val.vs "app")]).1
      = errDict "namespace, deployment_name, and replicas are required" ∧
    pyIn "replicas is required"
        "namespace, deployment_name, and replicas are required" = false := by
  constructor
  · decide
  · decide

/-- C3 (amended): for every tool and every argument bag missing one of
that tool's required keys (with the cluster connected, so that cluster
tools reach their validation step), the invocation returns, without
raising, the handler's validation error dict, the message mentions the
missing key, no gateway (cluster or LLM) call occurs, and the state is
unchanged.  Tools with a single required argument produce exactly
"<arg> is required"; tools with several produce the combined
"... are required" message. -/
theorem c3_amended_thm (m : LlmIntegration.LLMManager) (st : SState)
    (g : Gateway) (name key : String) (args : Bag)
    (hk : key ∈ requiredArgs name)
    (ha : bagGet args key = none)
    (hc : name ∈ clusterToolNames → ∃ h, st.cluster = some h) :
    rawDispatch m st g name args
      = (.ok (errDict (validationMessage name)), st, []) ∧
    pyIn key (validationMessage name) = true := by
  have htab := requiredArgs_mem_table name key hk
  fin_cases htab <;> fin_cases hk
  all_goals try
    (refine ⟨?_, by decide⟩
     simp [rawDispatch, validationMessage, handle_connect_cluster,
       handle_ask_llm, handle_get_troubleshooting_help, ha, optTruthy]
     done)
  all_goals
    (obtain ⟨hcl, hh⟩ := hc (by decide)
     refine ⟨?_, by decide⟩
     simp [rawDispatch, validationMessage, handle_list_applications,
       handle_list_pods, handle_list_services, handle_list_routes,
       handle_list_configmaps, handle_list_secrets, handle_get_pod_logs,
       handle_get_resource_usage, handle_scale_deployment, handle_delete_pod,
       handle_create_namespace, handle_delete_namespace, hh, ha, optTruthy])

/-- C3 witness: `list_pods` with a connected cluster and a bag without
`namespace` yields the validation error mentioning `namespace`, with no
gateway call. -/
theorem c3_witness :
    rawDispatch ⟨[], none⟩ ⟨some 1⟩ spyGateway "list_pods"
        [("foo", Val.vs "bar")]
      = (.ok (errDict (validationMessage "list_pods")), ⟨some 1⟩, []) ∧
    pyIn "namespace" (validationMessage "list_pods") = true :=
  c3_amended_thm ⟨[], none⟩ ⟨some 1⟩ spyGateway "list_pods" "namespace"
    [("foo", Val.vs "bar")] (by decide) (by decide) (fun _ => ⟨1, rfl⟩)

open OpenShiftMCP.BaseServer in
/-- C10: in the base MCP server, any `get_resource_usage` invocation with
a connected cluster whose gateway returns usage data without an "error"
key produces the catch-all text "Error executing tool
'get_resource_usage': ..." (the success branch references the undefined
name `self` and raises) and never a formatted usage report. -/
theorem c10_thm (st : BState) (g : BGateway) (args : Bag)
    (h : ServerWithLlm.ClusterHandle) (ns : Val) (usage : Bag)
    (hcl : st.cluster = some h)
    (hns : bagGet args "namespace" = some ns)
    (hus : g.get_resource_usage ns = .ok usage)
    (herr : bagGet usage "error" = none) :
    (∃ m, handle_call_tool st g "get_resource_usage" args
        = (.text ("Error executing tool 'get_resource_usage': " ++ m), st)) ∧
    ∀ payload, (handle_call_tool st g "get_resource_usage" args).1
        ≠ OutText.report "get_resource_usage" payload := by
  constructor
  · rcases hcpu : bagGet usage "total_cpu_request" with _ | v
    · exact ⟨"'total_cpu_request'",
        by simp [handle_call_tool, rawHandle, hcl, dictIndex, hns, hus, herr,
          hcpu, Except.instMonad, Except.bind]⟩
    · exact ⟨"name 'self' is not defined",
        by simp [handle_call_tool, rawHandle, hcl, dictIndex, hns, hus, herr,
          hcpu, Except.instMonad, Except.bind]⟩
  · intro payload
    rcases hcpu : bagGet usage "total_cpu_request" with _ | v <;>
      simp [handle_call_tool, rawHandle, hcl, dictIndex, hns, hus, herr,
        hcpu, Except.instMonad, Except.bind]

/-- C10 witness: a concrete connected state and gateway returning
error-free usage data yield the catch-all error text. -/
theorem c10_witness :
    (∃ m, BaseServer.handle_call_tool ⟨some 1⟩ BaseServer.spyBaseGateway
          "get_resource_usage" [("namespace", Val.vs "default")]
        = (.text ("Error executing tool 'get_resource_usage': " ++ m), ⟨some 1⟩)) ∧
    ∀ payload, (BaseServer.handle_call_tool ⟨some 1⟩ BaseServer.spyBaseGateway
          "get_resource_usage" [("namespace", Val.vs "default")]).1
        ≠ BaseServer.OutText.report "get_resource_usage" payload :=
  c10_thm ⟨some 1⟩ BaseServer.spyBaseGateway [("namespace", Val.vs "default")]
    1 (Val.vs "default")
    [("total_cpu_request", Val.vi 2), ("total_memory_request", Val.vi 1024)]
    rfl rfl rfl rfl

/-- C8: the interaction log append itself is total and order-preserving,
but the last-N display of `WorkingOpenShiftHostApp.get_history_summary`
raises `KeyError: 'query'` on any non-empty history, because
`add_to_history` stores the query under the key `'user_query'` while the
summary reads `entry['query']`: after one append the summary is the
KeyError, even though the underlying `[-5:]` slice holds exactly the
appended records in order. -/
theorem c8_thm :
    WorkingHost.get_history_summary
        (WorkingHost.add_to_history [] "2024-01-01T00:00:00" "list pods"
          "response text" "list_pods" 0)
      = .error "'query'" ∧
    WorkingHost.lastN
        (WorkingHost.add_to_history [] "2024-01-01T00:00:00" "list pods"
          "response text" "list_pods" 0) 5
      = WorkingHost.add_to_history [] "2024-01-01T00:00:00" "list pods"
          "response text" "list_pods" 0 := by
  constructor
  · rfl
  · rfl
